import Mathlib

/-!
Shallow embedding of `src/entrypoint.py` (a batch certificate downloader:
per-item Selenium retry loop, zip archiving, S3 upload, cleanup).

External effects (the browser driver, the filesystem, the S3 client) are
modelled as explicit oracle parameters:
* the driver/page behaviour of one download attempt is an `AttemptBehavior`
  (does `driver.get` raise, does the trigger button become visible within the
  `WebDriverWait` timeout, does the click raise, at which 1-second poll check
  does the downloaded file exist);
* archive writing and upload are given `Bool` oracles saying whether the
  underlying I/O raises;
* cleanup is given the directory listing and a predicate saying which
  `os.remove` calls raise.

Machine-level details that the claims do not touch (real time, the actual
bytes of the zip, the S3 wire protocol, log formatting of exception objects)
are abstracted; control flow, counting of driver interactions, produced
paths/strings and orderings follow the Python source line by line.
-/

/-- One row of the input CSV (`id`, `download_link`, `verification_link`,
`name`), as read in `main` (entrypoint.py lines 216-220). -/
structure Item where
  id : String
  download_link : String
  verification_link : String
  name : String
deriving DecidableEq

/-- Behaviour of the external driver/page/filesystem during one attempt of
`download_certificate`:
* `navOk`: `driver.get` returns normally (otherwise it raises);
* `triggerVisible`: the `As Image` button becomes visible within the
  10-second `WebDriverWait` (otherwise the wait raises `TimeoutException`);
* `clickOk`: the settle sleep and `download_button.click()` return normally;
* `fileExistsAt k`: the `os.path.exists` check performed at the k-th poll
  iteration (0-based, 10 iterations total) returns true. -/
structure AttemptBehavior where
  navOk : Bool
  triggerVisible : Bool
  clickOk : Bool
  fileExistsAt : Nat → Bool

/-- Result of one iteration of the retry loop in `download_certificate`
(entrypoint.py lines 95-127): either an exception was raised during
navigation (`errorNav`), trigger lookup (`errorTrigger`) or activation
(`errorClick`) and was caught by the `except` clause, or the poll loop found
the file at check `k` (`found k`, `k < 10`), or the 10 polls were exhausted
(`pollTimeout`). -/
inductive AttemptOutcome where
  | errorNav
  | errorTrigger
  | errorClick
  | found (k : Nat)
  | pollTimeout
deriving DecidableEq

/-- Python `os.path.join(a, b)` for two components (POSIX semantics):
an absolute second component wins; otherwise concatenate with exactly one
separator. -/
def pathJoin (a b : String) : String :=
  if b.data.head? = some '/' then b
  else if a = "" then b
  else if a.data.getLast? = some '/' then a ++ b
  else a ++ "/" ++ b

/-- Python `s.split("/")[-1]`: the suffix of `s` after the last `'/'`
(the whole string when no `'/'` occurs, `""` for a trailing `'/'`). -/
def lastSegment (s : String) : String :=
  { data := (s.data.reverse.takeWhile (fun c => c != '/')).reverse }

/-- Python `s.endswith(suffix)`, spelled out on the character lists so that
it evaluates by kernel reduction. -/
def strEndsWith (s suffix : String) : Bool :=
  List.isSuffixOf suffix.data s.data

/-- Member name that `zipfile.ZipFile.write(file_path)` records for a file:
the path with leading path separators stripped (drive handling and dot
normalisation do not apply to the relative POSIX paths this program
produces). -/
def arcname (p : String) : String :=
  { data := p.data.dropWhile (fun c => c == '/') }

/-- The poll loop of `download_certificate` (entrypoint.py lines 116-120):
`for _ in range(10): sleep(1); if os.path.exists(path): return path`.
Returns the first check index at which the file exists, `none` when the
10-check budget is exhausted. -/
def pollForFile (fileExistsAt : Nat → Bool) : Option Nat :=
  (List.range 10).find? fileExistsAt

/-- Outcome of one iteration of the retry loop, from the attempt's driver
behaviour, following the statement order of entrypoint.py lines 95-127:
`driver.get`, then `WebDriverWait(driver, 10).until(visibility_of ...)`,
then `sleep(1)` and `click()`, then the 10-step poll loop. -/
def attemptOutcome (b : AttemptBehavior) : AttemptOutcome :=
  if b.navOk = false then .errorNav
  else if b.triggerVisible = false then .errorTrigger
  else if b.clickOk = false then .errorClick
  else
    match pollForFile b.fileExistsAt with
    | some k => .found k
    | none => .pollTimeout

/-- Number of `os.path.exists` checks an attempt with the given outcome
performs: an exception before the poll loop performs none, a successful
attempt stops at its finding check, a timed-out attempt uses all 10. -/
def attemptPolls : AttemptOutcome → Nat
  | .found k => k + 1
  | .pollTimeout => 10
  | _ => 0

/-- Whether the attempt ended in the `except Exception` handler of
`download_certificate` (an exception during navigation, trigger lookup or
activation). -/
def AttemptOutcome.isError : AttemptOutcome → Bool
  | .errorNav => true
  | .errorTrigger => true
  | .errorClick => true
  | _ => false

/-- Total number of `os.path.exists` checks performed by the `n` attempts
starting at attempt index `attempt`, none of which returns early (used to
account for the polls preceding a successful attempt). -/
def pollsFrom (env : Nat → AttemptBehavior) : Nat → Nat → Nat
  | _, 0 => 0
  | attempt, n + 1 =>
    attemptPolls (attemptOutcome (env attempt)) + pollsFrom env (attempt + 1) n

/-- Path `os.path.join(temp_dir, download_link.split("/")[-1] + ".png")`
returned by a successful `download_certificate` (entrypoint.py lines
110-111). -/
def downloadedFilePath (download_link temp_dir : String) : String :=
  pathJoin temp_dir (lastSegment download_link ++ ".png")

/-- Observable result of one `download_certificate` call: the returned value
(`some path` or `None`), the number of `driver.get` calls, and the number of
`os.path.exists` poll checks. -/
structure DownloadRun where
  result : Option String
  navs : Nat
  polls : Nat
deriving DecidableEq

/-- The retry loop of `download_certificate` (entrypoint.py lines 93-132):
`retries = 0; while retries < max_retries: ...` where every iteration either
returns the downloaded path or executes `retries += 1` exactly once (both in
the timeout path and in the `except` path).  Since `retries` starts at 0 and
increases by exactly 1 per non-returning iteration, the loop performs at
most `max_retries.toNat` iterations; `remaining` is the number of iterations
the loop condition still allows and `attempt` is the current value of
`retries`.  Each iteration starts with one `driver.get` call (counted in
`navs`), even when a later statement of the iteration raises. -/
def downloadLoop (env : Nat → AttemptBehavior) (download_link temp_dir : String) :
    Nat → Nat → DownloadRun
  | 0, _ => { result := none, navs := 0, polls := 0 }
  | remaining + 1, attempt =>
    let o := attemptOutcome (env attempt)
    match o with
    | .found k =>
      { result := some (downloadedFilePath download_link temp_dir)
        navs := 1
        polls := k + 1 }
    | _ =>
      let rest := downloadLoop env download_link temp_dir remaining (attempt + 1)
      { result := rest.result
        navs := rest.navs + 1
        polls := rest.polls + attemptPolls o }

/-- Model of `download_certificate(download_link, temp_dir, driver, name,
max_retries)` (entrypoint.py lines 79-132).  `env i` is the behaviour of the
driver and filesystem during the i-th attempt.  The Python parameter
`max_retries` is an `int`, modelled as `Int`; the `name` parameter is used
only in log messages and is omitted. -/
def download_certificate (env : Nat → AttemptBehavior)
    (download_link temp_dir : String) (max_retries : Int := 3) : DownloadRun :=
  downloadLoop env download_link temp_dir max_retries.toNat 0

/-- The per-row loop of `main` (entrypoint.py lines 216-225): for each row,
call `download_certificate` (with the default `max_retries = 3`) and append
to `certificates` when the returned value is truthy (a non-empty string),
otherwise append `(name, download_link)` to `failed_downloads`.  `env idx`
is the driver behaviour while processing row `idx`. -/
def batchLoop (env : Nat → Nat → AttemptBehavior) (temp_dir : String) :
    List Item → Nat → List String × List (String × String)
  | [], _ => ([], [])
  | row :: rest, idx =>
    let r := download_certificate (env idx) row.download_link temp_dir 3
    let tail := batchLoop env temp_dir rest (idx + 1)
    match r.result with
    | some p =>
      if p = "" then (tail.1, (row.name, row.download_link) :: tail.2)
      else (p :: tail.1, tail.2)
    | none => (tail.1, (row.name, row.download_link) :: tail.2)

/-- The whole batch of `main`, starting at row index 0. -/
def runBatch (env : Nat → Nat → AttemptBehavior) (temp_dir : String)
    (rows : List Item) : List String × List (String × String) :=
  batchLoop env temp_dir rows 0

/-- Archive produced by `create_zip_archive`: its path and its member list,
each member as (source file path, name recorded inside the archive). -/
structure ZipArchive where
  path : String
  members : List (String × String)
deriving DecidableEq

/-- Model of `create_zip_archive(zip_filename, temp_dir, certificates)`
(entrypoint.py lines 135-153): open a fresh zip at
`os.path.join(temp_dir, zip_filename)` and execute `zip_file.write(p)` for
each `p` in `certificates`, in order; each write appends one member. -/
def create_zip_archive (zip_filename temp_dir : String)
    (certificates : List String) : ZipArchive :=
  { path := pathJoin temp_dir zip_filename
    members := certificates.foldl (fun ms p => ms ++ [(p, arcname p)]) [] }

/-- Model of `upload_to_s3` (entrypoint.py lines 156-173): the whole body is
one `try/except Exception`, so the function returns normally whether or not
the S3 call raises; its only claim-relevant observable is the error-log line
emitted on failure (exception text elided). -/
def upload_to_s3 (uploadRaises : Bool) : List String :=
  if uploadRaises then ["Error uploading ZIP file to S3"] else []

/-- Removal actions attempted by `cleanup`: `removeZip` is the
`os.remove(zip_file_path)` call, `removeFile p` an `os.remove(p)` for a file
inside the temp directory, `removeDir` the `os.rmdir(temp_dir)` call;
`zipRemoveError` and `dirPhaseError` are the two `logging.error` calls of
the two `except` clauses. -/
inductive CleanupEvent where
  | removeZip
  | zipRemoveError
  | removeFile (path : String)
  | removeDir
  | dirPhaseError
deriving DecidableEq

/-- The `for file_path in os.listdir(temp_dir): os.remove(...)` loop inside
the second `try` block of `cleanup` (entrypoint.py lines 191-192).
`removeFails p` says whether `os.remove(p)` raises.  Returns the removal
attempts performed and whether the loop completed without an exception: a
raising `os.remove` ends the loop at once (the exception propagates to the
enclosing `try`). -/
def removeFilesLoop (temp_dir : String) (removeFails : String → Bool) :
    List String → List CleanupEvent × Bool
  | [] => ([], true)
  | f :: rest =>
    if removeFails (pathJoin temp_dir f) then
      ([CleanupEvent.removeFile (pathJoin temp_dir f)], false)
    else
      let tail := removeFilesLoop temp_dir removeFails rest
      (CleanupEvent.removeFile (pathJoin temp_dir f) :: tail.1, tail.2)

/-- Model of `cleanup(temp_dir, zip_file_path)` (entrypoint.py lines
176-196).  Two separate `try/except` blocks: the first attempts
`os.remove(zip_file_path)` and logs on failure; the second runs the
per-file removal loop followed by `os.rmdir(temp_dir)` and logs on the
first exception, which aborts the remainder of that block.  `listing` is
what `os.listdir(temp_dir)` returns, `removeFails`/`rmdirFails` say which
removal system calls raise. -/
def cleanup (temp_dir zip_file_path : String) (removeFails : String → Bool)
    (rmdirFails : Bool) (listing : List String) : List CleanupEvent :=
  let firstPhase :=
    if removeFails zip_file_path then
      [CleanupEvent.removeZip, CleanupEvent.zipRemoveError]
    else [CleanupEvent.removeZip]
  let loop := removeFilesLoop temp_dir removeFails listing
  let secondPhase :=
    if loop.2 then
      if rmdirFails then loop.1 ++ [CleanupEvent.removeDir, CleanupEvent.dirPhaseError]
      else loop.1 ++ [CleanupEvent.removeDir]
    else loop.1 ++ [CleanupEvent.dirPhaseError]
  firstPhase ++ secondPhase

/-- Pipeline steps of `main` whose invocation the claims count. -/
inductive MainEvent where
  | archiveAttempt
  | uploadAttempt
  | cleanupCall
  | driverQuit
deriving DecidableEq

/-- Observables of one `main` run: the two partitions built by the row loop,
the archive (if its creation completed), the invoked pipeline steps in
order, the `logging.error` lines, the `print` lines, and whether `main`
returned normally (as opposed to an exception escaping it). -/
structure MainOutcome where
  certificates : List String
  failed_downloads : List (String × String)
  archive : Option ZipArchive
  events : List MainEvent
  errorLog : List String
  stdout : List String
  completedNormally : Bool

/-- Zip file name derivation of `main` (entrypoint.py lines 200-207): a
truthy (non-empty) input gets `.zip` appended unless already present, an
empty input yields `certificates_<timestamp>.zip`. -/
def finalZipFilename (zip_input now_ts : String) : String :=
  if zip_input = "" then "certificates_" ++ now_ts ++ ".zip"
  else if strEndsWith zip_input ".zip" then zip_input
  else zip_input ++ ".zip"

/-- The reported address (entrypoint.py lines 234-236), built from the
configured `S3_BUCKET_LOCATION` and `S3_BUCKET_NAME`. -/
def objectUrl (bucketLocation bucketName zipName : String) : String :=
  "https://s3-" ++ bucketLocation ++ ".amazonaws.com/" ++ bucketName ++ "/" ++ zipName

/-- The success message of `main` (entrypoint.py line 250). -/
def successMessage (url : String) : String :=
  "All items are downloaded successfully. You can find the zip on this link : " ++ url

/-- The failure line format of `main` (entrypoint.py line 240). -/
def failureLine (name download_link : String) : String :=
  "Name: " ++ name ++ ", Download link: " ++ download_link

/-- Model of `main` (entrypoint.py lines 199-252).  `env row attempt` is the
driver behaviour for the given row and attempt; `archiveRaises` says whether
the zip write inside `create_zip_archive` raises (in which case the
exception propagates out of `main` — there is no `try/finally` — so neither
upload nor cleanup nor reporting happens); `uploadRaises` says whether the
S3 upload raises (swallowed inside `upload_to_s3`).  After the row loop the
Python variables `name` and `download_link` still hold the values of the
last CSV row; line 240 builds `err_message` once from them, and both report
loops then emit that fixed string once per failed item.  Setup steps
(logging, S3 client, driver construction, CSV reading) and the unused
`get_bucket_location` call are not modelled.  (Named `mainRun` because Lean
reserves the top-level name `main` for executable entry points.) -/
def mainRun (env : Nat → Nat → AttemptBehavior) (bucketName bucketLocation : String)
    (zip_input now_ts temp_dir : String) (rows : List Item)
    (archiveRaises uploadRaises : Bool) : MainOutcome :=
  let zip_filename := finalZipFilename zip_input now_ts
  let pr := runBatch env temp_dir rows
  let certificates := pr.1
  let failed_downloads := pr.2
  if archiveRaises then
    { certificates := certificates
      failed_downloads := failed_downloads
      archive := none
      events := [MainEvent.archiveAttempt]
      errorLog := []
      stdout := []
      completedNormally := false }
  else
    let z := create_zip_archive zip_filename temp_dir certificates
    let uploadLog := upload_to_s3 uploadRaises
    let events := [MainEvent.archiveAttempt, MainEvent.uploadAttempt,
      MainEvent.cleanupCall, MainEvent.driverQuit]
    let object_url := objectUrl bucketLocation bucketName zip_filename
    if failed_downloads ≠ [] then
      let lastRow := rows.getLastD { id := "", download_link := "", verification_link := "", name := "" }
      let err_message := failureLine lastRow.name lastRow.download_link
      { certificates := certificates
        failed_downloads := failed_downloads
        archive := some z
        events := events
        errorLog := uploadLog ++ "Failed downloads:" :: failed_downloads.map (fun _ => err_message)
        stdout := "Some downloads have failed, checkout the list below:" ::
          failed_downloads.map (fun _ => err_message)
        completedNormally := true }
    else
      { certificates := certificates
        failed_downloads := failed_downloads
        archive := some z
        events := events
        errorLog := uploadLog
        stdout := [successMessage object_url]
        completedNormally := true }

/-- Driver behaviour where navigation succeeds but the trigger button never
becomes visible within the `WebDriverWait` timeout. -/
def envTriggerFail : Nat → AttemptBehavior := fun _ =>
  { navOk := true, triggerVisible := false, clickOk := true, fileExistsAt := fun _ => false }

/-- Driver behaviour where every `driver.get` raises. -/
def envNavError : Nat → AttemptBehavior := fun _ =>
  { navOk := false, triggerVisible := true, clickOk := true, fileExistsAt := fun _ => false }

/-- Driver behaviour where everything works and the file already exists at
the first poll check. -/
def envImmediate : Nat → AttemptBehavior := fun _ =>
  { navOk := true, triggerVisible := true, clickOk := true, fileExistsAt := fun _ => true }

/-- Per-row driver behaviour where row 0 never shows the trigger button and
every other row downloads at once. -/
def envRowMix : Nat → Nat → AttemptBehavior := fun row _ =>
  if row = 0 then
    { navOk := true, triggerVisible := false, clickOk := true, fileExistsAt := fun _ => false }
  else
    { navOk := true, triggerVisible := true, clickOk := true, fileExistsAt := fun _ => true }

/-- Per-row driver behaviour where every download succeeds at once. -/
def envAllOk : Nat → Nat → AttemptBehavior := fun _ _ =>
  { navOk := true, triggerVisible := true, clickOk := true, fileExistsAt := fun _ => true }

/-- Two concrete CSV rows: Alice's download never materialises, Bob's
succeeds (paired with `envRowMix`). -/
def rowsMix : List Item :=
  [{ id := "1", download_link := "site/alice", verification_link := "v", name := "Alice" },
   { id := "2", download_link := "site/bob", verification_link := "v", name := "Bob" }]

/-- Filesystem behaviour where only removing the archive file `t/z.zip`
raises. -/
def failsZipOnly : String → Bool := fun s => s == "t/z.zip"

/-- Filesystem behaviour where only removing the temp-directory file `t/a`
raises. -/
def failsAOnly : String → Bool := fun s => s == "t/a"

/-- Helper: when the trigger never becomes visible, an attempt's outcome is
one of the two error outcomes that precede the poll loop, never `found`. -/
theorem attemptOutcome_not_found_of_trigger (b : AttemptBehavior)
    (h : b.triggerVisible = false) : ∀ m, attemptOutcome b ≠ .found m := by
  intro m
  unfold attemptOutcome
  cases hn : b.navOk <;> simp [hn, h]

/-- Helper: an attempt that ended in the exception handler did not find the
file. -/
theorem attemptOutcome_not_found_of_isError (o : AttemptOutcome)
    (h : o.isError = true) : ∀ m, o ≠ .found m := by
  intro m
  cases o <;> simp_all [AttemptOutcome.isError]

/-- Helper: when no attempt finds the file, the loop runs its full budget,
returns `None`, and performs one navigation per budgeted attempt. -/
theorem downloadLoop_no_found (env : Nat → AttemptBehavior) (l t : String)
    (h : ∀ i m, attemptOutcome (env i) ≠ .found m) :
    ∀ remaining attempt, downloadLoop env l t remaining attempt =
      { result := none, navs := remaining, polls := pollsFrom env attempt remaining } := by
  intro remaining
  induction remaining with
  | zero => intro attempt; simp [downloadLoop, pollsFrom]
  | succ n ih =>
    intro attempt
    simp only [downloadLoop]
    cases hout : attemptOutcome (env attempt) with
    | found m => exact absurd hout (h attempt m)
    | errorNav =>
      rw [ih (attempt + 1)]
      simp [pollsFrom, hout, attemptPolls]
    | errorTrigger =>
      rw [ih (attempt + 1)]
      simp [pollsFrom, hout, attemptPolls]
    | errorClick =>
      rw [ih (attempt + 1)]
      simp [pollsFrom, hout, attemptPolls]
    | pollTimeout =>
      rw [ih (attempt + 1)]
      simp [pollsFrom, hout, attemptPolls, Nat.add_comm]

/-- Helper: the loop never performs more navigations than its budget. -/
theorem downloadLoop_navs_le (env : Nat → AttemptBehavior) (l t : String) :
    ∀ remaining attempt, (downloadLoop env l t remaining attempt).navs ≤ remaining := by
  intro remaining
  induction remaining with
  | zero => intro attempt; simp [downloadLoop]
  | succ n ih =>
    intro attempt
    simp only [downloadLoop]
    cases hout : attemptOutcome (env attempt) with
    | found m => simp
    | errorNav => simpa using Nat.succ_le_succ (ih (attempt + 1))
    | errorTrigger => simpa using Nat.succ_le_succ (ih (attempt + 1))
    | errorClick => simpa using Nat.succ_le_succ (ih (attempt + 1))
    | pollTimeout => simpa using Nat.succ_le_succ (ih (attempt + 1))

/-- Helper: if the attempts before index `k` do not find the file and
attempt `k` (within budget) finds it at poll check `j`, the loop returns the
derived path right there: `k + 1` navigations and only `j + 1` poll checks
in the final attempt. -/
theorem downloadLoop_found_at (env : Nat → AttemptBehavior) (l t : String) :
    ∀ (k remaining attempt j : Nat),
      k < remaining →
      (∀ i, i < k → ∀ m, attemptOutcome (env (attempt + i)) ≠ .found m) →
      attemptOutcome (env (attempt + k)) = .found j →
      downloadLoop env l t remaining attempt =
        { result := some (downloadedFilePath l t)
          navs := k + 1
          polls := pollsFrom env attempt k + (j + 1) } := by
  intro k
  induction k with
  | zero =>
    intro remaining attempt j hk hbefore hfound
    cases remaining with
    | zero => omega
    | succ r =>
      simp only [downloadLoop]
      rw [show attempt + 0 = attempt from rfl] at hfound
      rw [hfound]
      simp [pollsFrom]
  | succ k ih =>
    intro remaining attempt j hk hbefore hfound
    cases remaining with
    | zero => omega
    | succ r =>
      have hk' : k < r := by omega
      have hb' : ∀ i, i < k → ∀ m, attemptOutcome (env (attempt + 1 + i)) ≠ .found m := by
        intro i hi m
        have := hbefore (i + 1) (by omega) m
        rwa [show attempt + (i + 1) = attempt + 1 + i by omega] at this
      have hf' : attemptOutcome (env (attempt + 1 + k)) = .found j := by
        rwa [show attempt + 1 + k = attempt + (k + 1) by omega]
      have h0 : ∀ m, attemptOutcome (env attempt) ≠ .found m := by
        intro m
        simpa using hbefore 0 (by omega) m
      simp only [downloadLoop]
      cases hout : attemptOutcome (env attempt) with
      | found m => exact absurd hout (h0 m)
      | errorNav =>
        rw [ih r (attempt + 1) j hk' hb' hf']
        simp [pollsFrom, hout, attemptPolls]
      | errorTrigger =>
        rw [ih r (attempt + 1) j hk' hb' hf']
        simp [pollsFrom, hout, attemptPolls]
      | errorClick =>
        rw [ih r (attempt + 1) j hk' hb' hf']
        simp [pollsFrom, hout, attemptPolls]
      | pollTimeout =>
        rw [ih r (attempt + 1) j hk' hb' hf']
        simp [pollsFrom, hout, attemptPolls]
        omega

/-- C1: for every item, if the trigger control never becomes visible within
the per-attempt timeout on any attempt, `download_certificate` returns the
failure outcome `None` and the driver is asked to navigate (`driver.get` on
the item's download link) exactly `max_retries` times, one navigation per
attempt. -/
theorem download_certificate_trigger_never_visible
    (env : Nat → AttemptBehavior) (download_link temp_dir : String)
    (max_retries : Int) (hmr : 0 ≤ max_retries)
    (h : ∀ i, (env i).triggerVisible = false) :
    (download_certificate env download_link temp_dir max_retries).result = none ∧
    ((download_certificate env download_link temp_dir max_retries).navs : Int)
      = max_retries := by
  have hall : ∀ i m, attemptOutcome (env i) ≠ .found m := fun i =>
    attemptOutcome_not_found_of_trigger (env i) (h i)
  unfold download_certificate
  rw [downloadLoop_no_found env download_link temp_dir hall]
  exact ⟨rfl, by simp [Int.toNat_of_nonneg hmr]⟩

/-- Witness for C1 at a concrete driver behaviour whose trigger button never
appears and the default retry budget of 3. -/
theorem download_certificate_trigger_never_visible_witness :
    (download_certificate envTriggerFail "site/alice" "temp" 3).result = none ∧
    ((download_certificate envTriggerFail "site/alice" "temp" 3).navs : Int) = 3 :=
  download_certificate_trigger_never_visible envTriggerFail "site/alice" "temp" 3
    (by decide) (fun _ => rfl)

/-- C2: for every item and every behaviour of the driver and filesystem,
`download_certificate` yields exactly one outcome — `None` or a path — and
never propagates an exception raised during navigation, trigger lookup, or
activation (in the model each call returns one `DownloadRun`, the `except`
branch being one of the loop outcomes); moreover the loop never exceeds its
`max_retries` navigation budget, and when every attempt raises such an
exception, each exception consumes exactly one retry: the budget is used in
full and the outcome is `None`. -/
theorem download_certificate_single_outcome_and_retry_consumption
    (env : Nat → AttemptBehavior) (download_link temp_dir : String)
    (max_retries : Int) :
    ((download_certificate env download_link temp_dir max_retries).result = none ∨
      ∃ p, (download_certificate env download_link temp_dir max_retries).result = some p) ∧
    (download_certificate env download_link temp_dir max_retries).navs
      ≤ max_retries.toNat ∧
    ((∀ i, (attemptOutcome (env i)).isError = true) →
      (download_certificate env download_link temp_dir max_retries).result = none ∧
      (download_certificate env download_link temp_dir max_retries).navs
        = max_retries.toNat) := by
  refine ⟨?_, ?_, ?_⟩
  · cases h : (download_certificate env download_link temp_dir max_retries).result with
    | none => exact Or.inl rfl
    | some p => exact Or.inr ⟨p, rfl⟩
  · exact downloadLoop_navs_le env download_link temp_dir max_retries.toNat 0
  · intro h
    have hall : ∀ i m, attemptOutcome (env i) ≠ .found m := fun i =>
      attemptOutcome_not_found_of_isError (attemptOutcome (env i)) (h i)
    unfold download_certificate
    rw [downloadLoop_no_found env download_link temp_dir hall]
    exact ⟨rfl, rfl⟩

/-- Witness for C2 at a concrete driver behaviour where every `driver.get`
raises: all three exceptions are absorbed, one per retry, and the call
returns `None`. -/
theorem download_certificate_single_outcome_witness :
    (download_certificate envNavError "site/alice" "temp" 3).result = none ∧
    (download_certificate envNavError "site/alice" "temp" 3).navs = 3 :=
  (download_certificate_single_outcome_and_retry_consumption envNavError
    "site/alice" "temp" 3).2.2 (fun _ => rfl)

/-- C3: if on some attempt `k` within the retry budget the expected file
exists during polling (at poll check `j`), `download_certificate` returns
success immediately — the remaining poll checks of that attempt and all
remaining attempts are not consumed — and the returned path is the working
directory joined with the last path segment of the download URL plus the
fixed `.png` suffix. -/
theorem download_certificate_success_immediate
    (env : Nat → AttemptBehavior) (download_link temp_dir : String)
    (max_retries : Int) (k j : Nat) (hk : (k : Int) < max_retries)
    (hbefore : ∀ i, i < k → ∀ m, attemptOutcome (env i) ≠ .found m)
    (hfound : attemptOutcome (env k) = .found j) :
    download_certificate env download_link temp_dir max_retries =
      { result := some (downloadedFilePath download_link temp_dir)
        navs := k + 1
        polls := pollsFrom env 0 k + (j + 1) } := by
  have hk' : k < max_retries.toNat := by omega
  have hb : ∀ i, i < k → ∀ m, attemptOutcome (env (0 + i)) ≠ .found m := by
    intro i hi m
    simpa using hbefore i hi m
  have hf : attemptOutcome (env (0 + k)) = .found j := by simpa using hfound
  unfold download_certificate
  exact downloadLoop_found_at env download_link temp_dir k max_retries.toNat 0 j hk' hb hf

/-- Witness for C3 at a concrete driver behaviour where the file exists at
the very first poll check of the first attempt: one navigation, one poll
check, and the path is `temp` joined with `bob` plus `.png`. -/
theorem download_certificate_success_immediate_witness :
    download_certificate envImmediate "site/bob" "temp" 3 =
      { result := some (downloadedFilePath "site/bob" "temp")
        navs := 0 + 1
        polls := pollsFrom envImmediate 0 0 + (0 + 1) } :=
  download_certificate_success_immediate envImmediate "site/bob" "temp" 3 0 0
    (by decide) (fun i hi m => absurd hi (Nat.not_lt_zero i)) (by decide)

/-- C9: if `download_certificate` is called with `max_retries ≤ 0`, the
`while retries < max_retries` guard fails at once: it returns `None`
immediately, with no navigation and no poll check. -/
theorem download_certificate_nonpositive_retries
    (env : Nat → AttemptBehavior) (download_link temp_dir : String)
    (max_retries : Int) (h : max_retries ≤ 0) :
    download_certificate env download_link temp_dir max_retries =
      { result := none, navs := 0, polls := 0 } := by
  unfold download_certificate
  rw [Int.toNat_of_nonpos h]
  rfl

/-- Witness for C9 at `max_retries = 0` (and a driver that would succeed if
asked): no navigation happens and the call fails. -/
theorem download_certificate_nonpositive_retries_witness :
    download_certificate envImmediate "site/bob" "temp" 0 =
      { result := none, navs := 0, polls := 0 } :=
  download_certificate_nonpositive_retries envImmediate "site/bob" "temp" 0 (by decide)

/-- Helper: each processed row contributes exactly one entry to exactly one
of the two partitions, at any starting row index. -/
theorem batchLoop_length (env : Nat → Nat → AttemptBehavior) (temp_dir : String) :
    ∀ (rows : List Item) (idx : Nat),
      (batchLoop env temp_dir rows idx).1.length
        + (batchLoop env temp_dir rows idx).2.length = rows.length := by
  intro rows
  induction rows with
  | nil => intro idx; rfl
  | cons row rest ih =>
    intro idx
    simp only [batchLoop]
    cases h : (download_certificate (env idx) row.download_link temp_dir 3).result with
    | none =>
      have := ih (idx + 1)
      simp [h]
      omega
    | some p =>
      by_cases hp : p = "" <;> · have := ih (idx + 1); simp [h, hp]; omega

/-- C4: for every input list of rows, the batch loop of `main` calls the
retrieval engine exactly once per row with no early termination, and every
row contributes exactly one outcome to exactly one of the two partitions,
so the number of certificate paths plus the number of failed downloads
equals the number of input rows. -/
theorem run_batch_partition_sizes (env : Nat → Nat → AttemptBehavior)
    (temp_dir : String) (rows : List Item) :
    (runBatch env temp_dir rows).1.length
      + (runBatch env temp_dir rows).2.length = rows.length :=
  batchLoop_length env temp_dir rows 0

/-- Helper: folding `zip_file.write` over the certificate list appends one
member per certificate, in order. -/
theorem zip_write_foldl (certs : List String) (acc : List (String × String)) :
    certs.foldl (fun ms p => ms ++ [(p, arcname p)]) acc
      = acc ++ certs.map (fun p => (p, arcname p)) := by
  induction certs generalizing acc with
  | nil => simp
  | cons c cs ih => simp [ih]

/-- C5: the archive written by `create_zip_archive` contains as members
exactly the files of the given success-path list — every listed path as a
member source and nothing else, in the same order — so the member set is
determined by the input list (the recorded member names are the zipfile
arcnames of those paths). -/
theorem create_zip_archive_members_exact (zip_filename temp_dir : String)
    (certificates : List String) :
    (create_zip_archive zip_filename temp_dir certificates).members.map Prod.fst
      = certificates ∧
    (create_zip_archive zip_filename temp_dir certificates).members.map Prod.snd
      = certificates.map arcname := by
  constructor <;>
    simp [create_zip_archive, zip_write_foldl, List.map_map, Function.comp_def]

/-- Helper: the pipeline steps a `mainRun` invocation performs depend only
on whether the archive write raises: without a raise the four steps archive,
upload, cleanup, driver-quit each run once; with a raise the run stops at
the archive step (there is no `try/finally` in `main`). -/
theorem mainRun_events_eq (env : Nat → Nat → AttemptBehavior)
    (bucketName bucketLocation zip_input now_ts temp_dir : String)
    (rows : List Item) (archiveRaises uploadRaises : Bool) :
    (mainRun env bucketName bucketLocation zip_input now_ts temp_dir rows
        archiveRaises uploadRaises).events =
      if archiveRaises then [MainEvent.archiveAttempt]
      else [MainEvent.archiveAttempt, MainEvent.uploadAttempt,
        MainEvent.cleanupCall, MainEvent.driverQuit] := by
  cases archiveRaises with
  | true => rfl
  | false =>
    by_cases h : (runBatch env temp_dir rows).2 = [] <;> simp [mainRun, h]

/-- C6 counterexample: the claim that cleanup is invoked exactly once per
run regardless of whether archiving succeeded is false on the code — in a
run whose archive write raises (here: empty input, everything else
healthy), the exception propagates out of `main` before `cleanup` is
reached, so cleanup is invoked zero times, not once. -/
theorem mainRun_archive_failure_skips_cleanup_cex :
    (mainRun envAllOk "test-bucket" "eu-north-1" "z" "ts" "temp" [] true false).events.count
      MainEvent.cleanupCall = 0 := by
  decide

/-- C6 amended: cleanup is invoked exactly once per run whenever the archive
write completes without raising, regardless of retrieval outcomes and of an
upload failure (which `upload_to_s3` swallows); but when the archive write
raises, the run aborts before cleanup, which is then not invoked at all. -/
theorem mainRun_cleanup_once_unless_archive_raises
    (env : Nat → Nat → AttemptBehavior)
    (bucketName bucketLocation zip_input now_ts temp_dir : String)
    (rows : List Item) (uploadRaises : Bool) :
    (mainRun env bucketName bucketLocation zip_input now_ts temp_dir rows
        false uploadRaises).events.count MainEvent.cleanupCall = 1 ∧
    (mainRun env bucketName bucketLocation zip_input now_ts temp_dir rows
        true uploadRaises).events.count MainEvent.cleanupCall = 0 := by
  rw [mainRun_events_eq, mainRun_events_eq]
  exact ⟨rfl, rfl⟩

/-- Helper: when no `os.remove` of a listed file raises, the removal loop
attempts every file and completes. -/
theorem removeFilesLoop_all_ok (temp_dir : String) (removeFails : String → Bool) :
    ∀ listing : List String,
      (∀ f ∈ listing, removeFails (pathJoin temp_dir f) = false) →
      removeFilesLoop temp_dir removeFails listing =
        (listing.map (fun f => CleanupEvent.removeFile (pathJoin temp_dir f)), true) := by
  intro listing
  induction listing with
  | nil => intro _; rfl
  | cons f rest ih =>
    intro h
    have hf := h f (by simp)
    have hrest := ih (fun g hg => h g (by simp [hg]))
    simp [removeFilesLoop, hf, hrest]

/-- Helper: when the files before `x` remove fine and removing `x` raises,
the removal loop stops at `x`: the later files are never attempted and the
loop reports failure. -/
theorem removeFilesLoop_aborts (temp_dir : String) (removeFails : String → Bool)
    (x : String) (hx : removeFails (pathJoin temp_dir x) = true) :
    ∀ (pre post : List String),
      (∀ f ∈ pre, removeFails (pathJoin temp_dir f) = false) →
      removeFilesLoop temp_dir removeFails (pre ++ x :: post) =
        (pre.map (fun f => CleanupEvent.removeFile (pathJoin temp_dir f))
          ++ [CleanupEvent.removeFile (pathJoin temp_dir x)], false) := by
  intro pre
  induction pre with
  | nil =>
    intro post _
    simp [removeFilesLoop, hx]
  | cons f rest ih =>
    intro post h
    have hf := h f (by simp)
    have hrest := ih post (fun g hg => h g (by simp [hg]))
    simp [removeFilesLoop, hf, hrest]

/-- C7 counterexample: the claim that every removal is attempted regardless
of prior removal failures is false on the code — with listing
`["a", "b"]` where removing `t/a` raises, `cleanup` never attempts to
remove `t/b` nor the directory itself: the whole run is
`[removeZip, removeFile t/a, dirPhaseError]`. -/
theorem cleanup_file_failure_not_exhaustive_cex :
    cleanup "t" "t/z.zip" failsAOnly false ["a", "b"] =
      [CleanupEvent.removeZip, CleanupEvent.removeFile "t/a",
        CleanupEvent.dirPhaseError] ∧
    CleanupEvent.removeFile "t/b" ∉ cleanup "t" "t/z.zip" failsAOnly false ["a", "b"] ∧
    CleanupEvent.removeDir ∉ cleanup "t" "t/z.zip" failsAOnly false ["a", "b"] := by
  decide

/-- C7 amended: within `cleanup`, a failure to remove the archive file is
reported and does not abort the removal of the working-directory files or
of the directory itself (the two live in separate `try` blocks); but a
failure to remove a single file inside the working directory, while
reported, aborts the removal of the remaining files and of the directory,
because the per-file loop and `os.rmdir` share one `try` block. -/
theorem cleanup_zip_failure_isolated_file_failure_aborts :
    (∀ (temp_dir zip_file_path : String) (removeFails : String → Bool)
        (listing : List String),
      (∀ f ∈ listing, removeFails (pathJoin temp_dir f) = false) →
      (∀ f ∈ listing, CleanupEvent.removeFile (pathJoin temp_dir f) ∈
        cleanup temp_dir zip_file_path removeFails false listing) ∧
      CleanupEvent.removeDir ∈ cleanup temp_dir zip_file_path removeFails false listing) ∧
    (∀ (temp_dir zip_file_path : String) (removeFails : String → Bool)
        (rmdirFails : Bool) (pre : List String) (x : String) (post : List String),
      (∀ f ∈ pre, removeFails (pathJoin temp_dir f) = false) →
      removeFails (pathJoin temp_dir x) = true →
      cleanup temp_dir zip_file_path removeFails rmdirFails (pre ++ x :: post) =
        (if removeFails zip_file_path then
          [CleanupEvent.removeZip, CleanupEvent.zipRemoveError]
        else [CleanupEvent.removeZip]) ++
        pre.map (fun f => CleanupEvent.removeFile (pathJoin temp_dir f)) ++
        [CleanupEvent.removeFile (pathJoin temp_dir x), CleanupEvent.dirPhaseError]) := by
  constructor
  · intro temp_dir zip_file_path removeFails listing h
    have hloop := removeFilesLoop_all_ok temp_dir removeFails listing h
    constructor
    · intro f hf
      simp [cleanup, hloop]
      exact Or.inr ⟨f, hf, rfl⟩
    · simp [cleanup, hloop]
  · intro temp_dir zip_file_path removeFails rmdirFails pre x post hpre hx
    have hloop := removeFilesLoop_aborts temp_dir removeFails x hx pre post hpre
    by_cases hz : removeFails zip_file_path <;> simp [cleanup, hloop, hz]

/-- Witness for the amended C7: with listing `["a", "b"]` and only the
archive removal raising, both files and the directory are still removed;
and with only `t/a` raising, the run stops right after that removal
attempt. -/
theorem cleanup_zip_failure_isolated_witness :
    (CleanupEvent.removeDir ∈ cleanup "t" "t/z.zip" failsZipOnly false ["a", "b"]) ∧
    cleanup "t" "t/z.zip" failsAOnly false ([] ++ "a" :: ["b"]) =
      (if failsAOnly "t/z.zip" then
        [CleanupEvent.removeZip, CleanupEvent.zipRemoveError]
      else [CleanupEvent.removeZip]) ++
      ([] : List String).map (fun f => CleanupEvent.removeFile (pathJoin "t" f)) ++
      [CleanupEvent.removeFile (pathJoin "t" "a"), CleanupEvent.dirPhaseError] :=
  ⟨((cleanup_zip_failure_isolated_file_failure_aborts).1 "t" "t/z.zip" failsZipOnly
      ["a", "b"] (by decide)).2,
   (cleanup_zip_failure_isolated_file_failure_aborts).2 "t" "t/z.zip" failsAOnly
      false [] "a" ["b"] (by decide) (by decide)⟩

/-- C8 evaluated at a failing input (the code-bug evidence): two rows where
Alice's download fails and Bob's (the last CSV row) succeeds.  The sole
failed item is `("Alice", "site/alice")`, and both report loops do emit one
line per failed item — but because `err_message` is built once, before the
loops, from the `name`/`download_link` variables still holding the last CSV
row, that line reads `Name: Bob, Download link: site/bob` instead of
reporting Alice's own name and download link. -/
theorem mainRun_failure_report_repeats_last_row :
    (mainRun envRowMix "test-bucket" "eu-north-1" "z" "ts" "temp" rowsMix
        false false).failed_downloads = [("Alice", "site/alice")] ∧
    (mainRun envRowMix "test-bucket" "eu-north-1" "z" "ts" "temp" rowsMix
        false false).stdout =
      ["Some downloads have failed, checkout the list below:",
        "Name: Bob, Download link: site/bob"] ∧
    (mainRun envRowMix "test-bucket" "eu-north-1" "z" "ts" "temp" rowsMix
        false false).errorLog =
      ["Failed downloads:", "Name: Bob, Download link: site/bob"] ∧
    failureLine "Alice" "site/alice" ≠ "Name: Bob, Download link: site/bob" := by
  refine ⟨?_, ?_, ?_, ?_⟩ <;> decide

/-- C10: on an empty input table the run does not crash and does not skip
archiving: both partitions are empty, an archive with zero members is still
created and uploaded, the failure branch is not taken, and the success
message with the object URL is emitted. -/
theorem mainRun_empty_input_success_path (env : Nat → Nat → AttemptBehavior)
    (bucketName bucketLocation zip_input now_ts temp_dir : String)
    (uploadRaises : Bool) :
    (mainRun env bucketName bucketLocation zip_input now_ts temp_dir []
        false uploadRaises).certificates = [] ∧
    (mainRun env bucketName bucketLocation zip_input now_ts temp_dir []
        false uploadRaises).failed_downloads = [] ∧
    (mainRun env bucketName bucketLocation zip_input now_ts temp_dir []
        false uploadRaises).archive =
      some { path := pathJoin temp_dir (finalZipFilename zip_input now_ts)
             members := [] } ∧
    (mainRun env bucketName bucketLocation zip_input now_ts temp_dir []
        false uploadRaises).events =
      [MainEvent.archiveAttempt, MainEvent.uploadAttempt,
        MainEvent.cleanupCall, MainEvent.driverQuit] ∧
    (mainRun env bucketName bucketLocation zip_input now_ts temp_dir []
        false uploadRaises).stdout =
      [successMessage (objectUrl bucketLocation bucketName
        (finalZipFilename zip_input now_ts))] ∧
    (mainRun env bucketName bucketLocation zip_input now_ts temp_dir []
        false uploadRaises).completedNormally = true :=
  ⟨rfl, rfl, rfl, rfl, rfl, rfl⟩
